import Mathlib

/-!
Verification of the chat fan-out service (Go backend): message model and
validation (`pkg/message`), the per-connection inbound pump (`pkg/client`),
the hub event loop (`pkg/hub`), and configuration loading (`pkg/config`),
shallowly embedded in Lean 4.

Go strings are modelled by `String`; Go `len` on a string counts UTF-8
bytes, modelled by `String.utf8ByteSize`.  Go `time.Time` is modelled by
`GoTime` (nanoseconds plus a flag recording whether the value has been
normalized to the UTC location).  Fallible operations that can panic in Go
(`close` of a closed channel, send on a closed channel) return `Except`.
-/

/-- Go `len(s)` on a string: the number of UTF-8 bytes. -/
def golen (s : String) : Nat := s.utf8ByteSize

/-- Model of Go `time.Time`: absolute instant in nanoseconds plus whether
the value carries the UTC location (`t.UTC()` sets it). -/
structure GoTime where
  nanos : Int
  utc : Bool
deriving DecidableEq, Repr

/-- `time.Now().UTC()` at a given instant: the location is UTC. -/
def goNowUTC (nanos : Int) : GoTime := { nanos := nanos, utc := true }

/-- `pkg/message`: the wire message (struct `Message`). The Go `Type` field
is a string type; its four recognized constants are "chat", "system",
"join", "leave". -/
structure Message where
  MessageID : String
  RoomID : String
  «Type» : String
  UserID : String
  Username : String
  Content : String
  Timestamp : GoTime
deriving DecidableEq, Repr

/-- `MaxContentLength = 1000` from `pkg/message`. -/
def MaxContentLength : Nat := 1000

/-- `MaxUsernameLength = 50` from `pkg/message`. -/
def MaxUsernameLength : Nat := 50

/-- The five sentinel errors `Validate` can return. -/
inductive ValidationError where
  | ErrEmptyContent
  | ErrContentTooLong
  | ErrEmptyUsername
  | ErrUsernameTooLong
  | ErrInvalidType
deriving DecidableEq, Repr

/-- `Message.Validate` from `pkg/message`: sequential checks returning the
first violation (`some e` models a non-nil error, `none` models nil). -/
def Message.Validate (m : Message) : Option ValidationError :=
  if m.«Type» ≠ "chat" ∧ m.«Type» ≠ "system" ∧ m.«Type» ≠ "join" ∧ m.«Type» ≠ "leave" then
    some ValidationError.ErrInvalidType
  else if m.Username = "" then
    some ValidationError.ErrEmptyUsername
  else if golen m.Username > MaxUsernameLength then
    some ValidationError.ErrUsernameTooLong
  else if m.«Type» = "chat" then
    if m.Content = "" then
      some ValidationError.ErrEmptyContent
    else if golen m.Content > MaxContentLength then
      some ValidationError.ErrContentTooLong
    else
      none
  else
    none

/-- `NewChatMessage` from `pkg/message`: the timestamp is
`time.Now().UTC()`, taken from the server clock (`nowNanos`), and the
remaining fields keep their Go zero values. -/
def NewChatMessage (nowNanos : Int) (userID username content : String) : Message :=
  { MessageID := ""
    RoomID := ""
    «Type» := "chat"
    UserID := userID
    Username := username
    Content := content
    Timestamp := goNowUTC nowNanos }

/-- `NewSystemMessage` from `pkg/message`. -/
def NewSystemMessage (nowNanos : Int) (content : String) : Message :=
  { MessageID := ""
    RoomID := ""
    «Type» := "system"
    UserID := "system"
    Username := "System"
    Content := content
    Timestamp := goNowUTC nowNanos }

/-- Go `[]byte`, modelled as a list of byte values. -/
abbrev Bytes := List Nat

/-- `sendBufferSize = 256` from `pkg/client`: capacity of the per-client
send channel. -/
def sendBufferSize : Nat := 256

/-- Go runtime panics relevant to the modelled code: `close` of a closed
channel and send on a closed channel both panic. -/
inductive GoPanic where
  | closeOfClosedChannel
  | sendOnClosedChannel
deriving DecidableEq, Repr

/-- The client's buffered send channel `c.send`: its pending payloads in
FIFO order and whether it has been closed. -/
structure SendChan where
  buf : List Bytes
  closed : Bool
deriving DecidableEq, Repr

/-- `Client.Send` from `pkg/client`: `select` with a `default` branch.
If the channel has a free slot the payload is enqueued; if it is full the
`default` branch runs (drop and log) and the call returns; a send on a
closed channel panics (Go semantics). -/
def clientSend (c : SendChan) (data : Bytes) : Except GoPanic SendChan :=
  if c.closed then
    Except.error GoPanic.sendOnClosedChannel
  else if c.buf.length < sendBufferSize then
    Except.ok { c with buf := c.buf ++ [data] }
  else
    Except.ok c

/-- `Client.Close` from `pkg/client`: `close(c.send)`. Closing an
already-closed channel panics (Go semantics). -/
def clientClose (c : SendChan) : Except GoPanic SendChan :=
  if c.closed then
    Except.error GoPanic.closeOfClosedChannel
  else
    Except.ok { c with closed := true }

/-- One iteration of `Client.readPump` from `pkg/client`, for a frame that
was read successfully: parse (`message.FromJSON`, abstracted as the
`fromJSON` parameter since `encoding/json` is external), overwrite
`UserID`/`Username` with the connection's identity, validate; `none` means
the frame is discarded (`continue`), `some m` is the message that will be
marshalled and broadcast. -/
def readPumpStep (userID username : String) (fromJSON : Bytes → Option Message)
    (frame : Bytes) : Option Message :=
  match fromJSON frame with
  | none => none
  | some msg =>
    let m : Message := { msg with UserID := userID, Username := username }
    match m.Validate with
    | some _ => none
    | none => some m

/-- The payload (if any) that one `readPump` iteration hands to
`hub.Broadcast`: the accepted message marshalled by `Message.ToJSON`
(abstracted as the `toJSON` parameter); a marshalling error means
`continue`, no broadcast. -/
def readPumpBroadcast (userID username : String) (fromJSON : Bytes → Option Message)
    (toJSON : Message → Option Bytes) (frame : Bytes) : Option Bytes :=
  match readPumpStep userID username fromJSON frame with
  | none => none
  | some m => toJSON m

/-- C1: `Validate` checks violations in a fixed order and returns the first:
invalid type first; then empty / overlong username; then, for type "chat"
only, empty / overlong content; otherwise it accepts. -/
theorem message_Validate_first_violation (m : Message) :
    (¬ (m.«Type» = "chat" ∨ m.«Type» = "system" ∨ m.«Type» = "join" ∨ m.«Type» = "leave") →
      m.Validate = some ValidationError.ErrInvalidType) ∧
    ((m.«Type» = "chat" ∨ m.«Type» = "system" ∨ m.«Type» = "join" ∨ m.«Type» = "leave") →
      m.Username = "" → m.Validate = some ValidationError.ErrEmptyUsername) ∧
    ((m.«Type» = "chat" ∨ m.«Type» = "system" ∨ m.«Type» = "join" ∨ m.«Type» = "leave") →
      m.Username ≠ "" → golen m.Username > MaxUsernameLength →
      m.Validate = some ValidationError.ErrUsernameTooLong) ∧
    (m.«Type» = "chat" → m.Username ≠ "" → golen m.Username ≤ MaxUsernameLength →
      m.Content = "" → m.Validate = some ValidationError.ErrEmptyContent) ∧
    (m.«Type» = "chat" → m.Username ≠ "" → golen m.Username ≤ MaxUsernameLength →
      m.Content ≠ "" → golen m.Content > MaxContentLength →
      m.Validate = some ValidationError.ErrContentTooLong) ∧
    (m.«Type» = "chat" → m.Username ≠ "" → golen m.Username ≤ MaxUsernameLength →
      m.Content ≠ "" → golen m.Content ≤ MaxContentLength → m.Validate = none) ∧
    ((m.«Type» = "system" ∨ m.«Type» = "join" ∨ m.«Type» = "leave") →
      m.Username ≠ "" → golen m.Username ≤ MaxUsernameLength → m.Validate = none) := by
  refine ⟨?_, ?_, ?_, ?_, ?_, ?_, ?_⟩ <;>
    intros <;>
    unfold Message.Validate <;>
    split_ifs <;>
    simp_all <;>
    omega

/-- Chat message whose content is 1001 bytes long. -/
def msgChat1001 : Message :=
  { MessageID := ""
    RoomID := ""
    «Type» := "chat"
    UserID := "u1"
    Username := "Alice"
    Content := String.mk (List.replicate 1001 'a')
    Timestamp := goNowUTC 0 }

/-- Chat message whose content is 1000 bytes long. -/
def msgChat1000 : Message :=
  { msgChat1001 with Content := String.mk (List.replicate 1000 'a') }

/-- Join message with empty content. -/
def msgJoinEmpty : Message :=
  { msgChat1001 with «Type» := "join", Content := "" }

set_option maxRecDepth 100000

/-- Witness for C1: a chat message with 1001-byte content is rejected as
too long, one with 1000-byte content is accepted, and a join message with
empty content is accepted. -/
theorem message_Validate_first_violation_witness :
    msgChat1001.Validate = some ValidationError.ErrContentTooLong ∧
    msgChat1000.Validate = none ∧
    msgJoinEmpty.Validate = none := by
  refine ⟨?_, ?_, ?_⟩
  · exact (message_Validate_first_violation msgChat1001).2.2.2.2.1 rfl
      (by decide) (by decide) (by decide) (by decide)
  · exact (message_Validate_first_violation msgChat1000).2.2.2.2.2.1 rfl
      (by decide) (by decide) (by decide) (by decide)
  · exact (message_Validate_first_violation msgJoinEmpty).2.2.2.2.2.2
      (by decide) (by decide) (by decide)

/-- C2: every payload handed to `hub.Broadcast` by a `readPump` iteration
is the serialization of a Message that passes `Validate`; a frame that
fails to parse, or whose parsed message fails validation after the
identity overwrite, is never broadcast. -/
theorem readPump_broadcast_only_validated (userID username : String)
    (fromJSON : Bytes → Option Message) (toJSON : Message → Option Bytes)
    (frame : Bytes) (payload : Bytes) :
    (fromJSON frame = none →
      readPumpBroadcast userID username fromJSON toJSON frame = none) ∧
    (∀ msg : Message, fromJSON frame = some msg →
      Message.Validate { msg with UserID := userID, Username := username } ≠ none →
      readPumpBroadcast userID username fromJSON toJSON frame = none) ∧
    (readPumpBroadcast userID username fromJSON toJSON frame = some payload →
      ∃ m : Message, m.Validate = none ∧ toJSON m = some payload) := by
  refine ⟨?_, ?_, ?_⟩
  · intro hp
    simp [readPumpBroadcast, readPumpStep, hp]
  · intro msg hp hv
    simp only [readPumpBroadcast, readPumpStep, hp]
    cases hval : Message.Validate { msg with UserID := userID, Username := username } with
    | none => exact absurd hval hv
    | some e => simp
  · intro h
    unfold readPumpBroadcast readPumpStep at h
    cases hp : fromJSON frame with
    | none => rw [hp] at h; exact absurd h (by simp)
    | some msg =>
      rw [hp] at h
      dsimp only at h
      cases hval : Message.Validate { msg with UserID := userID, Username := username } with
      | some e => rw [hval] at h; exact absurd h (by simp)
      | none =>
        rw [hval] at h
        exact ⟨{ msg with UserID := userID, Username := username }, hval, h⟩

/-- A client-supplied timestamp: some past instant, not normalized to UTC
(as produced by `json.Unmarshal` of an RFC3339 value with a zone offset). -/
def clientStamp : GoTime := { nanos := 1577836800000000000, utc := false }

/-- A parsed inbound frame carrying the client-supplied timestamp
`clientStamp` and spoofed identity fields. -/
def spoofedFrameMsg : Message :=
  { MessageID := "m-1"
    RoomID := "global"
    «Type» := "chat"
    UserID := "attacker"
    Username := "Mallory"
    Content := "hi"
    Timestamp := clientStamp }

/-- C3 (divergence): the message broadcast by `readPump` keeps the
client-supplied timestamp from the frame — the identity overwrite touches
only `UserID` and `Username` — while `NewChatMessage` (not used by
`readPump`) is where a server-assigned UTC timestamp would come from. -/
theorem readPump_keeps_client_timestamp :
    readPumpStep "user-1" "Alice" (fun _ => some spoofedFrameMsg) [] =
      some { spoofedFrameMsg with UserID := "user-1", Username := "Alice" } ∧
    (readPumpStep "user-1" "Alice" (fun _ => some spoofedFrameMsg) []).map Message.Timestamp =
      some clientStamp ∧
    clientStamp.utc = false ∧
    (NewChatMessage 1700000000000000000 "user-1" "Alice" "hi").Timestamp.utc = true := by
  refine ⟨by decide, by decide, rfl, rfl⟩

/-- C4: the broadcast outcome of a `readPump` iteration does not depend on
the client-supplied `userId`/`username` fields of the parsed frame; any
broadcast message carries the identity established at connection time. -/
theorem readPump_identity_noninterference (userID username x y : String)
    (toJSON : Message → Option Bytes) (msg : Message) (frame : Bytes) :
    readPumpBroadcast userID username
        (fun _ => some { msg with UserID := x, Username := y }) toJSON frame =
      readPumpBroadcast userID username (fun _ => some msg) toJSON frame ∧
    (∀ m : Message, readPumpStep userID username (fun _ => some msg) frame = some m →
      m.UserID = userID ∧ m.Username = username) := by
  constructor
  · rfl
  · intro m hm
    unfold readPumpStep at hm
    dsimp only at hm
    cases hval : Message.Validate { msg with UserID := userID, Username := username } with
    | some e => rw [hval] at hm; exact absurd hm (by simp)
    | none =>
      rw [hval] at hm
      cases hm
      exact ⟨rfl, rfl⟩

/-- Witness for C4 at a concrete frame: spoofed identity fields do not
change the broadcast payload, and the broadcast message carries the
connection identity. -/
theorem readPump_identity_noninterference_witness :
    readPumpBroadcast "user-1" "Alice"
        (fun _ => some { spoofedFrameMsg with UserID := "other", Username := "Oscar" })
        (fun m => some [golen m.Content]) [] =
      readPumpBroadcast "user-1" "Alice" (fun _ => some spoofedFrameMsg)
        (fun m => some [golen m.Content]) [] ∧
    ({ spoofedFrameMsg with UserID := "user-1", Username := "Alice" } : Message).UserID = "user-1" ∧
    ({ spoofedFrameMsg with UserID := "user-1", Username := "Alice" } : Message).Username = "Alice" := by
  refine ⟨(readPump_identity_noninterference "user-1" "Alice" "other" "Oscar"
    (fun m => some [golen m.Content]) spoofedFrameMsg []).1, ?_⟩
  exact (readPump_identity_noninterference "user-1" "Alice" "other" "Oscar"
    (fun m => some [golen m.Content]) spoofedFrameMsg []).2
    { spoofedFrameMsg with UserID := "user-1", Username := "Alice" } (by decide)

/-- Witness for C2 at concrete inputs: a frame that fails to parse is not
broadcast; a parsed chat frame with empty content is not broadcast; a
broadcast payload comes from a message passing `Validate`. -/
theorem readPump_broadcast_only_validated_witness :
    readPumpBroadcast "user-1" "Alice" (fun _ => none)
      (fun m => some [golen m.Content]) [] = none ∧
    readPumpBroadcast "user-1" "Alice" (fun _ => some { spoofedFrameMsg with Content := "" })
      (fun m => some [golen m.Content]) [] = none ∧
    ∃ m : Message, m.Validate = none ∧ some [golen m.Content] = some ([2] : Bytes) := by
  refine ⟨?_, ?_, ?_⟩
  · exact (readPump_broadcast_only_validated "user-1" "Alice" (fun _ => none)
      (fun m => some [golen m.Content]) [] []).1 rfl
  · exact (readPump_broadcast_only_validated "user-1" "Alice"
      (fun _ => some { spoofedFrameMsg with Content := "" })
      (fun m => some [golen m.Content]) [] []).2.1
      { spoofedFrameMsg with Content := "" } rfl (by decide)
  · exact (readPump_broadcast_only_validated "user-1" "Alice" (fun _ => some spoofedFrameMsg)
      (fun m => some [golen m.Content]) [] [2]).2.2 (by decide)

/-- C5: `Client.Send` on an open channel appends the payload at the tail
when the queue holds fewer than `sendBufferSize` payloads, and returns with
the queue unchanged (newest payload dropped, producer never blocked) when
the queue is full. -/
theorem client_Send_appends_or_drops (c : SendChan) (data : Bytes)
    (hopen : c.closed = false) :
    (c.buf.length < sendBufferSize →
      clientSend c data = Except.ok { c with buf := c.buf ++ [data] }) ∧
    (c.buf.length = sendBufferSize → clientSend c data = Except.ok c) := by
  constructor
  · intro hlt
    simp [clientSend, hopen, hlt]
  · intro heq
    simp [clientSend, hopen, heq]

/-- Witness for C5: a payload is appended to a non-full queue; a full queue
(256 pending payloads) is left unchanged. -/
theorem client_Send_appends_or_drops_witness :
    clientSend { buf := [[1]], closed := false } [2] =
      Except.ok { buf := [[1], [2]], closed := false } ∧
    clientSend { buf := List.replicate 256 [0], closed := false } [9] =
      Except.ok { buf := List.replicate 256 [0], closed := false } := by
  constructor
  · exact (client_Send_appends_or_drops { buf := [[1]], closed := false } [2] rfl).1
      (by decide)
  · exact (client_Send_appends_or_drops { buf := List.replicate 256 [0], closed := false }
      [9] rfl).2 (by simp [sendBufferSize])

/-- C6 (counterexample): a second `Client.Close` on the same handle is not
a no-op — `close` of an already-closed channel panics. -/
theorem client_Close_twice_panics :
    (clientClose { buf := [], closed := false }).bind clientClose =
      Except.error GoPanic.closeOfClosedChannel := by
  rfl

/-- Handles are identified by their Go interface identity (the key of the
hub's `map[Client]bool`), modelled as a number. -/
abbrev HandleId := Nat

/-- The requests received by `Hub.Run`'s `select` loop: values arriving on
`h.register`, `h.unregister`, `h.broadcast`, and the `h.done` closure. -/
inductive HubEvent where
  | register (c : HandleId)
  | unregister (c : HandleId)
  | broadcast (data : Bytes)
  | done
deriving DecidableEq, Repr

/-- State owned by `Hub.Run`: the `clients` map (a set, since the map is
keyed by handle with value `true`), the ordered log of `Close()` calls the
loop has made, the ordered log of `Send()` calls (fan-out deliveries), and
whether the loop has returned. -/
structure HubState where
  clients : Finset HandleId
  closes : List HandleId
  sends : List (HandleId × Bytes)
  halted : Bool
deriving DecidableEq

/-- One `select` case of `Hub.Run` from `pkg/hub`: register inserts into
the map; unregister deletes and calls `Close()` only when the handle is
present; broadcast calls `Send(data)` on every registered handle (Go map
iteration order is unspecified; deliveries are logged in ascending handle
order); `done` closes every handle, empties the map, and returns. -/
def hubStep (st : HubState) (e : HubEvent) : HubState :=
  match e with
  | HubEvent.register c => { st with clients := insert c st.clients }
  | HubEvent.unregister c =>
      if c ∈ st.clients then
        { st with clients := st.clients.erase c, closes := st.closes ++ [c] }
      else
        st
  | HubEvent.broadcast data =>
      { st with sends := st.sends ++ (st.clients.sort (· ≤ ·)).map (fun c => (c, data)) }
  | HubEvent.done =>
      { clients := ∅
        closes := st.closes ++ st.clients.sort (· ≤ ·)
        sends := st.sends
        halted := true }

/-- `Hub.Run`'s loop over a sequence of received requests: once the loop
has returned (`halted`), no further request is ever received or processed. -/
def hubRun (st : HubState) : List HubEvent → HubState
  | [] => st
  | e :: es => if st.halted then st else hubRun (hubStep st e) es

/-- C6 (amended): a second `Close` on the same handle panics rather than
being a no-op, and the hub avoids the double close — its unregister case
calls `Close()` only on a handle still present in the map and removes it,
so a second unregister request for the same handle performs no further
close. -/
theorem hub_unregister_closes_once (st : HubState) (c : HandleId)
    (h : c ∈ st.clients) :
    (hubStep st (HubEvent.unregister c)).closes = st.closes ++ [c] ∧
    c ∉ (hubStep st (HubEvent.unregister c)).clients ∧
    hubStep (hubStep st (HubEvent.unregister c)) (HubEvent.unregister c) =
      hubStep st (HubEvent.unregister c) ∧
    clientClose { buf := [], closed := true } = Except.error GoPanic.closeOfClosedChannel := by
  refine ⟨?_, ?_, ?_, rfl⟩
  · simp [hubStep, h]
  · simp [hubStep, h]
  · simp [hubStep, h]

/-- Witness for C6's amended statement: unregistering handle 3 twice logs
exactly one `Close()` call. -/
theorem hub_unregister_closes_once_witness :
    (hubStep { clients := {3}, closes := [], sends := [], halted := false }
        (HubEvent.unregister 3)).closes = [3] ∧
    hubStep (hubStep { clients := {3}, closes := [], sends := [], halted := false }
        (HubEvent.unregister 3)) (HubEvent.unregister 3) =
      hubStep { clients := {3}, closes := [], sends := [], halted := false }
        (HubEvent.unregister 3) := by
  constructor
  · exact (hub_unregister_closes_once
      { clients := {3}, closes := [], sends := [], halted := false } 3 (by decide)).1
  · exact (hub_unregister_closes_once
      { clients := {3}, closes := [], sends := [], halted := false } 3 (by decide)).2.2.1

/-- C8: registering is idempotent — a second register of the same handle
leaves the hub state (and hence the membership set and `ClientCount`)
unchanged, and registering an already-present handle is a no-op. -/
theorem hub_register_idempotent (st : HubState) (c : HandleId) :
    hubStep (hubStep st (HubEvent.register c)) (HubEvent.register c) =
      hubStep st (HubEvent.register c) ∧
    (c ∈ st.clients → hubStep st (HubEvent.register c) = st) ∧
    (hubStep (hubStep st (HubEvent.register c)) (HubEvent.register c)).clients.card =
      (hubStep st (HubEvent.register c)).clients.card := by
  refine ⟨?_, ?_, ?_⟩
  · simp [hubStep]
  · intro h
    simp [hubStep, Finset.insert_eq_self.mpr h]
  · simp [hubStep]

/-- Witness for C8: registering handle 5 when it is already the sole
member changes nothing. -/
theorem hub_register_idempotent_witness :
    hubStep { clients := {5}, closes := [], sends := [], halted := false }
        (HubEvent.register 5) =
      { clients := {5}, closes := [], sends := [], halted := false } :=
  (hub_register_idempotent
    { clients := {5}, closes := [], sends := [], halted := false } 5).2.1 (by decide)

/-- Outcome of a Go channel send for the calling goroutine. -/
inductive SendOutcome where
  | completes
  | blocksForever
deriving DecidableEq, Repr

/-- A Go buffered channel as seen by a sender: capacity and number of
buffered values. -/
structure ChanState where
  cap : Nat
  pending : Nat
deriving DecidableEq, Repr

/-- Go channel-send semantics once no goroutine will ever receive from the
channel again (after `Hub.Run` has returned, nothing receives from
`h.register`, `h.unregister` or `h.broadcast`): the send completes only by
buffering; on an unbuffered or full channel the sender blocks forever. -/
def sendNoReceiver (ch : ChanState) : SendOutcome × ChanState :=
  if ch.pending < ch.cap then
    (SendOutcome.completes, { ch with pending := ch.pending + 1 })
  else
    (SendOutcome.blocksForever, ch)

/-- `h.register` is `make(chan Client)`: unbuffered. -/
def registerChanCap : Nat := 0

/-- `h.broadcast` is `make(chan []byte, 256)`. -/
def broadcastChanCap : Nat := 256

/-- `Hub.Register` called after `Run` has returned: `h.register <- c` with
no receiver left. -/
def hubRegisterAfterShutdown : SendOutcome :=
  (sendNoReceiver { cap := registerChanCap, pending := 0 }).1

/-- `Hub.Broadcast` called after `Run` has returned, with `pending`
payloads already sitting in the broadcast buffer. -/
def hubBroadcastAfterShutdown (pending : Nat) : SendOutcome :=
  (sendNoReceiver { cap := broadcastChanCap, pending := pending }).1

/-- C7 (counterexample): a `Register` call after shutdown is not a no-op
that returns — the send on the unbuffered register channel blocks the
calling goroutine forever; a `Broadcast` call blocks forever once 256
pending payloads have accumulated. -/
theorem hub_register_after_shutdown_blocks_caller :
    hubRegisterAfterShutdown = SendOutcome.blocksForever ∧
    hubBroadcastAfterShutdown broadcastChanCap = SendOutcome.blocksForever := by
  exact ⟨rfl, rfl⟩

/-- C7 (amended): after `Run` has returned no event is processed (the
emptied membership stays unchanged and nothing panics), but a subsequent
`Register` blocks its caller forever, and a subsequent `Broadcast`
completes while fewer than 256 payloads are pending — accumulating them
unprocessed — and blocks its caller forever from 256 pending on. -/
theorem hub_after_shutdown_model (st : HubState) (es : List HubEvent) (pending : Nat)
    (hh : st.halted = true) (hp : pending < broadcastChanCap) :
    hubRun st es = st ∧
    (hubStep st HubEvent.done).clients = ∅ ∧
    hubRegisterAfterShutdown = SendOutcome.blocksForever ∧
    hubBroadcastAfterShutdown pending = SendOutcome.completes ∧
    (sendNoReceiver { cap := broadcastChanCap, pending := pending }).2.pending = pending + 1 ∧
    hubBroadcastAfterShutdown broadcastChanCap = SendOutcome.blocksForever := by
  refine ⟨?_, ?_, rfl, ?_, ?_, rfl⟩
  · cases es with
    | nil => rfl
    | cons e es => simp [hubRun, hh]
  · simp [hubStep]
  · simp [hubBroadcastAfterShutdown, sendNoReceiver, hp]
  · simp [sendNoReceiver, hp]

/-- Witness for C7's amended statement: a halted hub processes no further
events, and a first post-shutdown broadcast completes into the buffer. -/
theorem hub_after_shutdown_model_witness :
    hubRun { clients := ∅, closes := [], sends := [], halted := true }
        [HubEvent.register 1, HubEvent.broadcast [7]] =
      { clients := ∅, closes := [], sends := [], halted := true } ∧
    hubBroadcastAfterShutdown 0 = SendOutcome.completes := by
  constructor
  · exact (hub_after_shutdown_model
      { clients := ∅, closes := [], sends := [], halted := true }
      [HubEvent.register 1, HubEvent.broadcast [7]] 0 rfl (by decide)).1
  · exact (hub_after_shutdown_model
      { clients := ∅, closes := [], sends := [], halted := true }
      [HubEvent.register 1, HubEvent.broadcast [7]] 0 rfl (by decide)).2.2.2.1

/-- A Go `any` argument to `Hub.Register`/`Hub.Unregister`: either a value
implementing the hub `Client` interface or some other value. -/
inductive GoValue where
  | clientVal (c : HandleId)
  | nonClient (tag : Nat)
deriving DecidableEq, Repr

/-- The type assertion `client.(Client)` in `Hub.Register` and
`Hub.Unregister`. -/
def typeAssertClient : GoValue → Option HandleId
  | GoValue.clientVal c => some c
  | GoValue.nonClient _ => none

/-- `Hub.Register` from `pkg/hub`: the requests submitted to the event
loop — one register request when the assertion succeeds, none otherwise. -/
def hubRegisterCall (v : GoValue) : List HubEvent :=
  match typeAssertClient v with
  | some c => [HubEvent.register c]
  | none => []

/-- `Hub.Unregister` from `pkg/hub`, likewise. -/
def hubUnregisterCall (v : GoValue) : List HubEvent :=
  match typeAssertClient v with
  | some c => [HubEvent.unregister c]
  | none => []

/-- C9: passing a value that does not implement the `Client` interface to
`Hub.Register` or `Hub.Unregister` submits no request to the event loop
and leaves the hub state unchanged, with no panic. -/
theorem hub_register_non_client_silent_noop (v : GoValue) (st : HubState)
    (h : typeAssertClient v = none) :
    hubRegisterCall v = [] ∧ hubUnregisterCall v = [] ∧
    hubRun st (hubRegisterCall v) = st ∧ hubRun st (hubUnregisterCall v) = st := by
  refine ⟨?_, ?_, ?_, ?_⟩ <;> simp [hubRegisterCall, hubUnregisterCall, h, hubRun]

/-- Witness for C9: a non-`Client` argument submits nothing and changes
nothing. -/
theorem hub_register_non_client_silent_noop_witness :
    hubRegisterCall (GoValue.nonClient 0) = [] ∧
    hubRun { clients := {1}, closes := [], sends := [], halted := false }
        (hubRegisterCall (GoValue.nonClient 0)) =
      { clients := {1}, closes := [], sends := [], halted := false } := by
  constructor
  · exact (hub_register_non_client_silent_noop (GoValue.nonClient 0)
      { clients := {1}, closes := [], sends := [], halted := false } rfl).1
  · exact (hub_register_non_client_silent_noop (GoValue.nonClient 0)
      { clients := {1}, closes := [], sends := [], halted := false } rfl).2.2.1

/-- `pkg/config`: struct `Config`. -/
structure Config where
  Port : String
  DynamoDBEndpoint : String
  DynamoDBRegion : String
  AWSAccessKey : String
  AWSSecretKey : String
  LogLevel : String
deriving DecidableEq, Repr

/-- `os.Getenv`: the process environment maps a key to `some value` when
the variable is set and `none` when unset; `os.Getenv` returns the empty
string for an unset variable. -/
def osGetenv (env : String → Option String) (key : String) : String :=
  (env key).getD ""

/-- `getEnv` from `pkg/config`: return the variable's value when it is
non-empty, the supplied default otherwise. -/
def getEnv (env : String → Option String) (key defaultValue : String) : String :=
  let value := osGetenv env key
  if value ≠ "" then value else defaultValue

/-- `Load` from `pkg/config`. -/
def Load (env : String → Option String) : Config :=
  { Port := getEnv env ("PORT") ("8080")
    DynamoDBEndpoint := getEnv env ("DYNAMODB_ENDPOINT") ("http://localhost:8000")
    DynamoDBRegion := getEnv env ("DYNAMODB_REGION") ("us-east-1")
    AWSAccessKey := getEnv env ("AWS_ACCESS_KEY_ID") ("dummy")
    AWSSecretKey := getEnv env ("AWS_SECRET_ACCESS_KEY") ("dummy")
    LogLevel := getEnv env ("LOG_LEVEL") ("info") }

/-- C10: `getEnv` returns the default both when the variable is unset and
when it is set to the empty string, and returns any non-empty value
verbatim; hence `Load` falls back to the default on an empty-string
variable. -/
theorem getEnv_empty_means_default (env : String → Option String) (key d v : String) :
    (env key = none → getEnv env key d = d) ∧
    (env key = some "" → getEnv env key d = d) ∧
    (env key = some v → v ≠ "" → getEnv env key d = v) ∧
    (env ("PORT") = some "" → (Load env).Port = "8080") := by
  refine ⟨?_, ?_, ?_, ?_⟩
  · intro h
    simp [getEnv, osGetenv, h]
  · intro h
    simp [getEnv, osGetenv, h]
  · intro h hv
    simp [getEnv, osGetenv, h, hv]
  · intro h
    simp [Load, getEnv, osGetenv, h]

/-- Witness for C10: unset and empty-string variables both yield the
default; a non-empty variable is returned verbatim; `Load` applies the
same rule to `PORT`. -/
theorem getEnv_empty_means_default_witness :
    getEnv (fun _ => none) ("PORT") ("8080") = "8080" ∧
    getEnv (fun _ => some "") ("PORT") ("8080") = "8080" ∧
    getEnv (fun _ => some "9000") ("PORT") ("8080") = "9000" ∧
    (Load (fun _ => some "")).Port = "8080" := by
  refine ⟨?_, ?_, ?_, ?_⟩
  · exact (getEnv_empty_means_default (fun _ => none) ("PORT") ("8080") ("9000")).1 rfl
  · exact (getEnv_empty_means_default (fun _ => some "") ("PORT") ("8080") ("9000")).2.1 rfl
  · exact (getEnv_empty_means_default (fun _ => some "9000") ("PORT") ("8080")
      ("9000")).2.2.1 rfl (by decide)
  · exact (getEnv_empty_means_default (fun _ => some "") ("PORT") ("8080")
      ("9000")).2.2.2 rfl
